import Mathlib

/-!
# Client connection engine (client/src/Connection.cpp)

A shallow embedding of the client-side connection engine: the channel
registry, the channel identifier counter, frame dispatch, the close and
error paths and the opening handshake.  Channel objects live in a heap
indexed by address, the registry is an ordered association list from
identifiers to (possibly null) channel addresses, and every exchange with
the peer takes the answer of the peer as an explicit argument.
-/

namespace Qpid

/-! ## Data model -/

/-- The error object thrown with THROW_QPID_ERROR: a numeric code and a message. -/
structure QpidError where
  code : Int
  msg : String
deriving DecidableEq

/-- Method bodies used by the connection engine.  The constructor other
stands for every method class the engine does not name. -/
inductive MethodBody where
  | connectionStart
  | connectionStartOk (mechanism response locale : String)
  | connectionTune (channelMax frameMax heartbeat : Nat)
  | connectionTuneOk (channelMax frameMax heartbeat : Nat)
  | connectionOpen (virtualHost capabilities : String) (insist : Bool)
  | connectionOpenOk
  | connectionRedirect (host : String)
  | connectionClose (replyCode : Nat) (replyText : String) (classId methodId : Nat)
  | connectionCloseOk
  | channelOpen (outOfBand : String)
  | channelOpenOk
  | channelClose (replyCode : Nat) (replyText : String) (classId methodId : Nat)
  | channelCloseOk
  | other (n : Nat)
deriving DecidableEq

/-- The body variants a frame can carry. -/
inductive AMQBody where
  | method (m : MethodBody)
  | header
  | content
  | heartbeat
deriving DecidableEq

/-- A frame: a 16-bit channel identifier and a body. -/
structure AMQFrame where
  channel : Nat
  body : AMQBody
deriving DecidableEq

/-- The parts of the protocol layer that Connection.cpp uses but does not
define: the PROTOCOL_ERROR base code, the class and method identifier of
every method body, and the error raised by the response handler when the
delivered reply is not the expected method. -/
structure Protocol where
  PROTOCOL_ERROR : Int
  amqpClassId : MethodBody → Nat
  amqpMethodId : MethodBody → Nat
  mismatch : QpidError

/-- Modelled from the spec: AMQMethodBody::match (the method classes are not
in the sources), the test that two bodies have the same class/method
identity. -/
def Protocol.matches (P : Protocol) (a b : MethodBody) : Bool :=
  P.amqpClassId a == P.amqpClassId b && P.amqpMethodId a == P.amqpMethodId b

/-- The fields of a Channel object that Connection.cpp reads and writes.
The fields con and out are pointers in the source; true means set, false
means null. -/
structure Channel where
  id : Nat
  closed : Bool
  con : Bool
  out : Bool
deriving DecidableEq

/-- What the peer does with one synchronous exchange: it delivers a method
body, or the exchange fails with an error. -/
inductive Reply where
  | method (m : MethodBody)
  | failure (e : QpidError)
deriving DecidableEq

/-- The channel registry, std::map from identifier to Channel pointer, kept
in key order.  The pointer of an entry is none when it is null. -/
abbrev Registry := List (Nat × Option Nat)

/-- The state of one connection together with the channel objects it can
reach and a trace of its effects on the transport. -/
structure Connection where
  /-- The static 16-bit counter Connection::channelIdCounter. -/
  channelIdCounter : Nat
  max_frame_size : Nat
  closed : Bool
  host : String
  port : Int
  /-- Whether out holds the output handler of the connector. -/
  out : Bool
  channels : Registry
  /-- The channel objects, by address. -/
  heap : Nat → Channel
  /-- The response handler: an expectation is outstanding. -/
  waiting : Bool
  /-- The response handler: the last delivered reply. -/
  response : Option MethodBody
  /-- Frames handed to the output handler, oldest first. -/
  sent : List AMQFrame
  connected : Bool
  /-- The protocol initiation handed to the connector. -/
  initiation : Option (Nat × Nat)
  readTimeout : Nat
  writeTimeout : Nat
  /-- How many times connector->close() has been called. -/
  transportCloses : Nat
  /-- Bodies handed to Channel::handleBody, with the address of the channel. -/
  delivered : List (Nat × AMQBody)
  /-- Channels that were signalled to stop, by address. -/
  stopped : List Nat

/-- How a call ends: it returns, it throws a QpidError, or it dereferences
a null pointer.  Each carries the state reached at that point. -/
inductive Result where
  | ok (s : Connection)
  | raised (e : QpidError) (s : Connection)
  | fault (s : Connection)

/-- The state in which a call ended. -/
def Result.state : Result → Connection
  | .ok s => s
  | .raised _ s => s
  | .fault s => s

/-- Sequencing: the continuation runs only after a normal return. -/
def Result.bind (r : Result) (f : Connection → Result) : Result :=
  match r with
  | .ok s => f s
  | .raised e s => .raised e s
  | .fault s => .fault s

/-! ## The registry (std::map) -/

/-- Lookup without insertion (std::map::find). -/
def Registry.find (m : Registry) (k : Nat) : Option (Option Nat) :=
  (List.find? (fun e => e.1 == k) m).map Prod.snd

/-- The assignment channels[k] = v: replaces the entry of k or inserts one
in key order. -/
def Registry.put : Registry → Nat → Option Nat → Registry
  | [], k, v => [(k, v)]
  | (k0, v0) :: t, k, v =>
    if k < k0 then (k, v) :: (k0, v0) :: t
    else if k = k0 then (k, v) :: t
    else (k0, v0) :: Registry.put t k v

/-- The call channels.erase(k). -/
def Registry.erase (m : Registry) (k : Nat) : Registry :=
  m.filter (fun e => e.1 != k)

/-- The read channels[k] (std::map::operator[]): when k has no entry a null
entry is inserted first; the value of the entry is returned together with
the registry. -/
def Registry.index (m : Registry) (k : Nat) : Option Nat × Registry :=
  match m.find k with
  | some v => (v, m)
  | none => (none, m.put k none)

/-- Writes a channel object back to its address. -/
def Connection.setChannel (s : Connection) (channel : Nat) (c : Channel) : Connection :=
  { s with heap := Function.update s.heap channel c }

/-! ## The connector and the response handler -/

/-- The call out->send(frame). -/
def Connection.send (s : Connection) (frame : AMQFrame) : Connection :=
  { s with sent := s.sent ++ [frame] }

/-- The call connector->close(). -/
def Connection.connectorClose (s : Connection) : Connection :=
  { s with transportCloses := s.transportCloses + 1 }

/-- Modelled from the spec: ResponseHandler::expect (ResponseHandler is not in
the sources) registers that one reply is anticipated. -/
def Connection.expect (s : Connection) : Connection :=
  { s with waiting := true }

/-- Modelled from the spec: ResponseHandler::signalResponse (not in the
sources) delivers the body to the waiting caller and ends the wait. -/
def Connection.signalResponse (s : Connection) (body : MethodBody) : Connection :=
  { s with response := some body, waiting := false }

/-- Modelled from the spec: ResponseHandler::waitForResponse (not in the
sources) blocks until the reply is delivered or the wait fails. -/
def waitForResponse (s : Connection) (reply : Reply) : Result :=
  match reply with
  | .failure e => .raised e s
  | .method m => .ok (s.signalResponse m)

/-- Modelled from the spec: ResponseHandler::receive (not in the sources)
waits for the reply and raises a protocol error unless its class/method
identity is the expected one. -/
def receive (P : Protocol) (s : Connection) (expected : MethodBody) (reply : Reply) : Result :=
  (waitForResponse s reply).bind fun s1 =>
    match s1.response with
    | some m => if P.matches expected m then .ok s1 else .raised P.mismatch s1
    | none => .raised P.mismatch s1

/-- Whether a synchronous exchange expecting the given method fails, and
with which error. -/
def exchangeError (P : Protocol) (expected : MethodBody) (reply : Reply) : Option QpidError :=
  match reply with
  | .failure e => some e
  | .method m => if P.matches expected m then none else some P.mismatch

/-- Modelled from the spec: Channel::sendAndReceive (Channel.cpp is not in the
sources) sends the frame on the shared output path, waits for the reply in
the scope of the channel and checks it against the expected method. -/
def Channel.sendAndReceive (P : Protocol) (s : Connection) (frame : AMQFrame)
    (expected : MethodBody) (reply : Reply) : Result :=
  match exchangeError P expected reply with
  | some e => .raised e (s.send frame)
  | none => .ok (s.send frame)

/-! ## Connection.cpp -/

/-- The constructor Connection::Connection: the closed flag starts true, the
registry is empty.  The counter is static, so the constructor does not
touch it: counter is its value in the process at that moment (zero when no
channel has been opened yet). -/
def Connection.new (counter max_frame_size : Nat) (heap : Nat → Channel) : Connection :=
  { channelIdCounter := counter, max_frame_size := max_frame_size, closed := true,
    host := "", port := 0, out := false, channels := [], heap := heap,
    waiting := false, response := none, sent := [], connected := false,
    initiation := none, readTimeout := 0, writeTimeout := 0,
    transportCloses := 0, delivered := [], stopped := [] }

/-- Modelled from the spec: a channel is created detached (the constructor of
Channel is not in the sources): no identifier, no connection, no output
handle. -/
def Channel.detached : Channel :=
  { id := 0, closed := true, con := false, out := false }

/-- Connection::sendAndReceive: expect, send, receive. -/
def sendAndReceive (P : Protocol) (s : Connection) (frame : AMQFrame)
    (body : MethodBody) (reply : Reply) : Result :=
  receive P (s.expect.send frame) body reply

/-- The authentication response built in Connection::open:
((char)0) + uid + ((char)0) + pwd. -/
def authResponse (uid pwd : String) : String :=
  String.singleton (Char.ofNat 0) ++ uid ++ String.singleton (Char.ofNat 0) ++ pwd

/-- Connection::open.  The three replies are the answers of the peer to the
protocol initiation, to start-ok and to open, in this order; the calls
connector->connect and connector->init are taken to return.  The result is
a fault where the source uses the result of a dynamic cast that is null. -/
def Connection.open (P : Protocol) (s : Connection) (_host : String) (_port : Int)
    (uid pwd virtualhost : String) (r1 r2 r3 : Reply) : Result :=
  let s := { s with host := _host, port := _port, out := true, connected := true }
  let s := { s.expect with initiation := some (8, 0) }
  (receive P s .connectionStart r1).bind fun s =>
    let mechanism := "PLAIN"
    let response := authResponse uid pwd
    let locale := "en_US"
    let s := s.expect
    let s := s.send ⟨0, .method (.connectionStartOk mechanism response locale)⟩
    (receive P s (.connectionTune 0 0 0) r2).bind fun s =>
      match s.response with
      | some (.connectionTune channelMax _ heartbeat) =>
        let s := s.send ⟨0, .method (.connectionTuneOk channelMax s.max_frame_size heartbeat)⟩
        let s := { s with readTimeout := heartbeat * 2, writeTimeout := heartbeat }
        let s := s.expect
        let s := s.send ⟨0, .method (.connectionOpen virtualhost "" true)⟩
        (waitForResponse s r3).bind fun s =>
          match s.response with
          | some m =>
            if P.matches .connectionOpenOk m then .ok s
            else if P.matches (.connectionRedirect "") m then
              match m with
              | .connectionRedirect _ => .ok s
              | _ => .fault s
            else .raised ⟨P.PROTOCOL_ERROR, "Bad response"⟩ s
          | none => .raised ⟨P.PROTOCOL_ERROR, "Bad response"⟩ s
      | _ => .fault s

/-- Connection::close. -/
def close (P : Protocol) (s : Connection) (reply : Reply) : Result :=
  if !s.closed then
    (sendAndReceive P s ⟨0, .method (.connectionClose 200 "Ok" 0 0)⟩ .connectionCloseOk reply).bind
      fun s => .ok s.connectorClose
  else .ok s

/-- Connection::openChannel.  The reply is the answer of the peer to
channel-open; qos is the error raised by Channel::setQos, if any. -/
def openChannel (P : Protocol) (s : Connection) (channel : Nat) (reply : Reply)
    (qos : Option QpidError) : Result :=
  let s := s.setChannel channel { s.heap channel with con := true }
  let s := { s with channelIdCounter := (s.channelIdCounter + 1) % 65536 }
  let s := s.setChannel channel { s.heap channel with id := s.channelIdCounter }
  let s := s.setChannel channel { s.heap channel with out := s.out }
  let s := { s with channels := s.channels.put (s.heap channel).id (some channel) }
  (Channel.sendAndReceive P s ⟨(s.heap channel).id, .method (.channelOpen "")⟩
      .channelOpenOk reply).bind fun s =>
    match qos with
    | some e => .raised e s
    | none => .ok (s.setChannel channel { s.heap channel with closed := false })

/-- Connection::removeChannel. -/
def removeChannel (s : Connection) (channel : Nat) : Connection :=
  let s := { s with channels := s.channels.erase (s.heap channel).id }
  let s := s.setChannel channel { s.heap channel with out := false }
  let s := s.setChannel channel { s.heap channel with id := 0 }
  s.setChannel channel { s.heap channel with con := false }

/-- Connection::closeChannel with an explicit reason.  Channel::cancelAll works
on the consumers of the channel, which are not part of this state. -/
def closeChannel (P : Protocol) (s : Connection) (channel : Nat) (code : Nat)
    (text : String) (classId methodId : Nat) (reply : Reply) : Result :=
  let s := s.setChannel channel { s.heap channel with closed := true }
  (Channel.sendAndReceive P s
      ⟨(s.heap channel).id, .method (.channelClose code text classId methodId)⟩
      .channelCloseOk reply).bind fun s =>
    let s := s.setChannel channel { s.heap channel with con := false }
    let s := s.setChannel channel { s.heap channel with out := false }
    .ok (removeChannel s channel)

/-- Connection::closeChannel with the default reason 200 Ok. -/
def closeChannelOk (P : Protocol) (s : Connection) (channel : Nat) (reply : Reply) : Result :=
  closeChannel P s channel 200 "Ok" 0 0 reply

/-- Connection::error.  The arguments code, classid and methodid are int in the
source; every caller passes values that fit the 16-bit fields of the close
body. -/
def error (P : Protocol) (s : Connection) (code : Nat) (msg : String)
    (classid methodid : Nat) (reply : Reply) : Result :=
  (sendAndReceive P s ⟨0, .method (.connectionClose code msg classid methodid)⟩
      .connectionCloseOk reply).bind fun s => .ok s.connectorClose

/-- The reply code computed in Connection::channelException, narrowed to the
16-bit parameter of closeChannel. -/
def channelExceptionCode (P : Protocol) (e : QpidError) : Nat :=
  let code : Int := if e.code = P.PROTOCOL_ERROR then e.code - P.PROTOCOL_ERROR else 500
  (code % 65536).toNat

/-- Connection::channelException.  The method is none when the dynamic cast
of the body to a method body gives null. -/
def channelException (P : Protocol) (s : Connection) (channel : Nat)
    (method : Option MethodBody) (e : QpidError) (reply : Reply) : Result :=
  let code := channelExceptionCode P e
  let msg := e.msg
  match method with
  | none => closeChannel P s channel code msg 0 0 reply
  | some m => closeChannel P s channel code msg (P.amqpClassId m) (P.amqpMethodId m) reply

/-- Connection::handleMethod. -/
def handleMethod (P : Protocol) (s : Connection) (body : MethodBody) (reply : Reply) : Result :=
  if s.waiting then .ok (s.signalResponse body)
  else if P.matches (.connectionClose 0 "" 0 0) body then .ok s.connectorClose
  else error P s 504 "Unrecognised method" (P.amqpClassId body) (P.amqpMethodId body) reply

/-- Connection::handleHeader. -/
def handleHeader (P : Protocol) (s : Connection) (reply : Reply) : Result :=
  error P s 504 "Channel error: received header body with channel 0." 0 0 reply

/-- Connection::handleContent. -/
def handleContent (P : Protocol) (s : Connection) (reply : Reply) : Result :=
  error P s 504 "Channel error: received content body with channel 0." 0 0 reply

/-- Modelled from the spec: BodyHandler::handleBody (not in the sources)
dispatches on the body variant to the four handlers of the connection. -/
def handleBody (P : Protocol) (s : Connection) (body : AMQBody) (reply : Reply) : Result :=
  match body with
  | .method m => handleMethod P s m reply
  | .header => handleHeader P s reply
  | .content => handleContent P s reply
  | .heartbeat => .ok s

/-- The dynamic cast of a body to a method body. -/
def AMQBody.asMethod : AMQBody → Option MethodBody
  | .method m => some m
  | _ => none

/-- Connection::received.  The argument thrown is the QpidError raised by
Channel::handleBody for this body, if any; reply is the answer of the peer
to the synchronous exchange the call may start. -/
def received (P : Protocol) (s : Connection) (frame : AMQFrame)
    (thrown : Option QpidError) (reply : Reply) : Result :=
  let channelId := frame.channel
  if channelId = 0 then handleBody P s frame.body reply
  else
    let channel := (s.channels.index channelId).1
    let s := { s with channels := (s.channels.index channelId).2 }
    match channel with
    | none => error P s 504 "Unknown channel" 0 0 reply
    | some channel =>
      let s := { s with delivered := s.delivered ++ [(channel, frame.body)] }
      match thrown with
      | none => .ok s
      | some e => channelException P s channel frame.body.asMethod e reply

/-- Connection::idleIn. -/
def idleIn (s : Connection) : Connection := s.connectorClose

/-- Connection::idleOut. -/
def idleOut (s : Connection) : Connection := s.send ⟨0, .heartbeat⟩

/-- The loop of Connection::shutdown over the registry: stop is called through
the pointer of every entry, which is a fault when the pointer is null. -/
def stopAll : Registry → Connection → Result
  | [], s => .ok s
  | (_, none) :: _, s => .fault s
  | (_, some channel) :: t, s => stopAll t { s with stopped := s.stopped ++ [channel] }

/-- Connection::shutdown. -/
def shutdown (s : Connection) : Result :=
  let s := { s with closed := true }
  stopAll s.channels s

/-! ## Sequences of registry operations -/

/-- One call on the registry of a connection, with the answers of the peer. -/
inductive Op where
  | openChannel (channel : Nat) (reply : Reply) (qos : Option QpidError)
  | closeChannel (channel : Nat) (reply : Reply)
  | removeChannel (channel : Nat)

/-- The identifiers assigned by the openChannel calls of a sequence, in call
order.  A call that throws leaves its effects in place and the caller goes
on with the next call. -/
def assignedIds (P : Protocol) : Connection → List Op → List Nat
  | _, [] => []
  | s, .openChannel channel reply qos :: ops =>
    let s1 := (openChannel P s channel reply qos).state
    (s1.heap channel).id :: assignedIds P s1 ops
  | s, .closeChannel channel reply :: ops =>
    assignedIds P (closeChannelOk P s channel reply).state ops
  | s, .removeChannel channel :: ops =>
    assignedIds P (removeChannel s channel) ops

/-- The number of openChannel calls in a sequence. -/
def countOpens : List Op → Nat
  | [] => 0
  | .openChannel _ _ _ :: ops => countOpens ops + 1
  | _ :: ops => countOpens ops

/-- A protocol table for examples: the PROTOCOL_ERROR base 10000 and distinct
identifiers for the method classes. -/
def exampleProtocol : Protocol :=
  { PROTOCOL_ERROR := 10000
    amqpClassId := fun m => match m with
      | .channelOpen _ | .channelOpenOk | .channelClose _ _ _ _ | .channelCloseOk => 20
      | .other n => 30 + n
      | _ => 10
    amqpMethodId := fun m => match m with
      | .connectionStart => 10 | .connectionStartOk _ _ _ => 11
      | .connectionTune _ _ _ => 30 | .connectionTuneOk _ _ _ => 31
      | .connectionOpen _ _ _ => 40 | .connectionOpenOk => 41
      | .connectionRedirect _ => 50
      | .connectionClose _ _ _ _ => 60 | .connectionCloseOk => 61
      | .channelOpen _ => 10 | .channelOpenOk => 11
      | .channelClose _ _ _ _ => 40 | .channelCloseOk => 41
      | .other _ => 0
    mismatch := ⟨10000, "Protocol Error"⟩ }

/-- A connection constructed when the static counter has the given value,
after the handshake of the end-to-end scenario: user guest/guest, virtual
host /, and a peer answering start, tune(channelMax=0, frameMax=131072,
heartbeat=60) and open-ok. -/
def exampleAt (counter : Nat) : Connection :=
  (Connection.open exampleProtocol (Connection.new counter 131072 fun _ => Channel.detached)
    "h" 5672 "guest" "guest" "/" (.method .connectionStart)
    (.method (.connectionTune 0 131072 60)) (.method .connectionOpenOk)).state

/-- The example connection of a process that has opened no channel yet. -/
def openedExample : Connection := exampleAt 0

/-- The call sequence that opens the channel at address 0 and closes it
again, n times over, the peer confirming every exchange. -/
def openCloseCycles : Nat → List Op
  | 0 => []
  | n + 1 =>
    .openChannel 0 (.method .channelOpenOk) none ::
      .closeChannel 0 (.method .channelCloseOk) :: openCloseCycles n

/-- The state of the response handler once the wait for a reply has ended. -/
def afterReply (s : Connection) : Reply → Connection
  | .failure _ => s
  | .method m => s.signalResponse m

/-- The example connection after one more call: the channel at address 3
opened, the peer confirming. -/
def oneChannel : Connection :=
  (openChannel exampleProtocol openedExample 3 (.method .channelOpenOk) none).state

/-- The example connection with two channels: the channel at address 3 opened
under identifier 1, then the channel at address 4 opened under identifier
2, the peer confirming both. -/
def twoChannels : Connection :=
  (openChannel exampleProtocol oneChannel 4 (.method .channelOpenOk) none).state

/-- The example connection after an open that was retried: the channel-open of
the channel at address 3 timed out, and a second openChannel on the same
channel was confirmed by the peer. -/
def retriedOpen : Connection :=
  (openChannel exampleProtocol
    (openChannel exampleProtocol openedExample 3 (.failure ⟨0, "timed out"⟩) none).state 3
    (.method .channelOpenOk) none).state

/-- The example connection of a process whose counter has reached 65535,
after opening the channels at addresses 1 and 2, the peer confirming. -/
def wrappedExample : Connection :=
  (openChannel exampleProtocol
    (openChannel exampleProtocol (exampleAt 65535) 1
      (.method .channelOpenOk) none).state 2 (.method .channelOpenOk) none).state

/-- The layout named by the specification for the authentication response:
mechanism, NUL, username, NUL, password. -/
def nullDelimited (mechanism username password : String) : String :=
  mechanism ++ String.singleton (Char.ofNat 0) ++ username ++ String.singleton (Char.ofNat 0)
    ++ password

/-- The filing invariant of the registry: every entry that refers to a
channel is filed under the id of that channel.  It holds after construction
and every call keeps it, provided openChannel is given a channel that is
not in the registry. -/
def Connection.Filed (s : Connection) : Prop :=
  ∀ k c, (k, some c) ∈ s.channels → (s.heap c).id = k

/-! ## The identifier counter -/

theorem openChannel_counter (P : Protocol) (s : Connection) (channel : Nat) (reply : Reply)
    (qos : Option QpidError) :
    (openChannel P s channel reply qos).state.channelIdCounter
      = (s.channelIdCounter + 1) % 65536 := by
  unfold openChannel Channel.sendAndReceive
  cases exchangeError P .channelOpenOk reply <;> cases qos <;>
    simp [Result.bind, Result.state, Connection.setChannel, Connection.send]

theorem openChannel_id (P : Protocol) (s : Connection) (channel : Nat) (reply : Reply)
    (qos : Option QpidError) :
    ((openChannel P s channel reply qos).state.heap channel).id
      = (s.channelIdCounter + 1) % 65536 := by
  unfold openChannel Channel.sendAndReceive
  cases exchangeError P .channelOpenOk reply <;> cases qos <;>
    simp [Result.bind, Result.state, Connection.setChannel, Connection.send]

theorem removeChannel_counter (s : Connection) (channel : Nat) :
    (removeChannel s channel).channelIdCounter = s.channelIdCounter := by
  simp [removeChannel, Connection.setChannel]

theorem closeChannel_counter (P : Protocol) (s : Connection) (channel code : Nat) (text : String)
    (classId methodId : Nat) (reply : Reply) :
    (closeChannel P s channel code text classId methodId reply).state.channelIdCounter
      = s.channelIdCounter := by
  unfold closeChannel Channel.sendAndReceive
  cases exchangeError P .channelCloseOk reply <;>
    simp [Result.bind, Result.state, Connection.setChannel, Connection.send, removeChannel]

theorem assignedIds_bounds (P : Protocol) (ops : List Op) :
    ∀ s : Connection, s.channelIdCounter + countOpens ops < 65536 →
      List.Pairwise (· < ·) (assignedIds P s ops) ∧
      ∀ i ∈ assignedIds P s ops, s.channelIdCounter < i ∧ i < 65536 := by
  induction ops with
  | nil => intro s _; simp [assignedIds]
  | cons op ops ih =>
    intro s h
    cases op with
    | openChannel channel reply qos =>
      simp only [countOpens] at h
      have hc := openChannel_counter P s channel reply qos
      have hi := openChannel_id P s channel reply qos
      have hmod : (s.channelIdCounter + 1) % 65536 = s.channelIdCounter + 1 :=
        Nat.mod_eq_of_lt (by omega)
      have := ih (openChannel P s channel reply qos).state (by rw [hc, hmod]; omega)
      simp only [assignedIds, List.pairwise_cons, List.mem_cons]
      rw [hc, hmod] at this
      rw [hi, hmod]
      refine ⟨⟨fun a ha => (this.2 a ha).1, this.1⟩, ?_⟩
      rintro i (rfl | hi')
      · omega
      · have := this.2 i hi'; omega
    | closeChannel channel reply =>
      simp only [countOpens] at h
      simp only [assignedIds]
      have := ih (closeChannelOk P s channel reply).state
        (by rw [closeChannelOk, closeChannel_counter]; exact h)
      rw [closeChannelOk, closeChannel_counter] at this
      exact this
    | removeChannel channel =>
      simp only [countOpens] at h
      simp only [assignedIds]
      have := ih (removeChannel s channel) (by rw [removeChannel_counter]; exact h)
      rw [removeChannel_counter] at this
      exact this

theorem assignedIds_openCloseCycles (P : Protocol) (n : Nat) :
    ∀ s : Connection, assignedIds P s (openCloseCycles n)
      = (List.range n).map (fun i => (s.channelIdCounter + 1 + i) % 65536) := by
  induction n with
  | zero => intro s; simp [openCloseCycles, assignedIds]
  | succ n ih =>
    intro s
    simp only [openCloseCycles, assignedIds]
    rw [ih, closeChannelOk, closeChannel_counter, openChannel_counter, openChannel_id,
      List.range_succ_eq_map, List.map_cons, List.map_map]
    congr 1
    apply List.map_congr_left
    intro i _
    simp only [Function.comp, Nat.succ_eq_add_one]
    omega

/-! ## The registry -/

theorem Registry.find_some_mem (m : Registry) (k : Nat) (v : Option Nat)
    (h : m.find k = some v) : (k, v) ∈ m := by
  unfold Registry.find at h
  rcases hf : List.find? (fun e => e.1 == k) m with _ | ⟨k', v'⟩
  · simp [hf] at h
  · rw [hf] at h
    simp only [Option.map_some', Option.some.injEq] at h
    have hk := List.find?_some hf
    have hm := List.mem_of_find?_eq_some hf
    simp only [beq_iff_eq] at hk
    subst hk; subst h
    exact hm

theorem Registry.find_none_not_mem (m : Registry) (k : Nat) (h : m.find k = none)
    (v : Option Nat) : (k, v) ∉ m := by
  unfold Registry.find at h
  simp only [Option.map_eq_none', List.find?_eq_none] at h
  intro hm
  have := h (k, v) hm
  simp at this

theorem Registry.mem_erase (m : Registry) (k : Nat) (e : Nat × Option Nat) :
    e ∈ m.erase k ↔ e ∈ m ∧ e.1 ≠ k := by
  simp [Registry.erase, List.mem_filter]

theorem Registry.erase_of_no_key (m : Registry) (k : Nat) (h : ∀ e ∈ m, e.1 ≠ k) :
    m.erase k = m := by
  unfold Registry.erase
  rw [List.filter_eq_self]
  intro e he
  simpa using h e he

theorem Registry.index_of_find (m : Registry) (k : Nat) (v : Option Nat)
    (h : m.find k = some v) : m.index k = (v, m) := by
  simp [Registry.index, h]

theorem Registry.index_of_absent (m : Registry) (k : Nat) (h : m.find k = none) :
    m.index k = (none, m.put k none) := by
  simp [Registry.index, h]

theorem Registry.find_put (m : Registry) (k : Nat) (v : Option Nat) :
    (m.put k v).find k = some v := by
  induction m with
  | nil => simp [Registry.put, Registry.find]
  | cons e t ih =>
    obtain ⟨k0, v0⟩ := e
    unfold Registry.put
    by_cases h1 : k < k0
    · simp [h1, Registry.find]
    · by_cases h2 : k = k0
      · simp [h2, Registry.find]
      · have h3 : (k0 == k) = false := by simpa using fun h => h2 h.symm
        simp only [h1, h2, if_false]
        unfold Registry.find at ih ⊢
        rw [List.find?_cons]
        simp only [h3]
        exact ih

theorem removeChannel_channels (s : Connection) (channel : Nat) :
    (removeChannel s channel).channels = s.channels.erase (s.heap channel).id := by
  simp [removeChannel, Connection.setChannel]

theorem removeChannel_heap_self (s : Connection) (channel : Nat) :
    (removeChannel s channel).heap channel
      = { id := 0, closed := (s.heap channel).closed, con := false, out := false } := by
  simp [removeChannel, Connection.setChannel]

theorem removeChannel_heap_other (s : Connection) (channel q : Nat) (h : q ≠ channel) :
    (removeChannel s channel).heap q = s.heap q := by
  simp [removeChannel, Connection.setChannel, Function.update, h]


/-! ## Dispatch, close and error paths -/

theorem exchangeError_of_matches (P : Protocol) (expected m : MethodBody)
    (h : P.matches expected m = true) : exchangeError P expected (.method m) = none := by
  simp [exchangeError, h]

theorem closeChannel_confirmed (P : Protocol) (s : Connection) (channel code : Nat)
    (text : String) (classId methodId : Nat) (reply : Reply)
    (h : exchangeError P .channelCloseOk reply = none) :
    ∃ s1, closeChannel P s channel code text classId methodId reply = .ok s1 ∧
      s1.channels = s.channels.erase (s.heap channel).id ∧
      s1.heap channel = { id := 0, closed := true, con := false, out := false } ∧
      (∀ q, q ≠ channel → s1.heap q = s.heap q) ∧
      s1.closed = s.closed ∧ s1.transportCloses = s.transportCloses ∧
      s1.delivered = s.delivered ∧ s1.channelIdCounter = s.channelIdCounter ∧
      s1.sent = s.sent ++
        [⟨(s.heap channel).id, .method (.channelClose code text classId methodId)⟩] := by
  unfold closeChannel Channel.sendAndReceive
  simp only [h, Result.bind]
  refine ⟨_, rfl, ?_, ?_, ?_, ?_, ?_, ?_, ?_, ?_⟩
  · simp [removeChannel, Connection.setChannel, Connection.send]
  · simp [removeChannel, Connection.setChannel, Connection.send]
  · intro q hq
    simp [removeChannel, Connection.setChannel, Connection.send, Function.update, hq]
  · simp [removeChannel, Connection.setChannel, Connection.send]
  · simp [removeChannel, Connection.setChannel, Connection.send]
  · simp [removeChannel, Connection.setChannel, Connection.send]
  · simp [removeChannel, Connection.setChannel, Connection.send]
  · simp [removeChannel, Connection.setChannel, Connection.send]

theorem received_registered_thrown (P : Protocol) (s : Connection) (frame : AMQFrame)
    (c : Nat) (e : QpidError) (reply : Reply) (hch : frame.channel ≠ 0)
    (hreg : s.channels.find frame.channel = some (some c)) :
    received P s frame (some e) reply
      = channelException P { s with delivered := s.delivered ++ [(c, frame.body)] } c
          frame.body.asMethod e reply := by
  unfold received
  simp only [hch, if_false, Registry.index_of_find _ _ _ hreg]



theorem receive_eq (P : Protocol) (s : Connection) (expected : MethodBody) (reply : Reply) :
    receive P s expected reply =
      match exchangeError P expected reply with
      | some e => .raised e (afterReply s reply)
      | none => .ok (afterReply s reply) := by
  cases reply with
  | failure e => simp [receive, waitForResponse, Result.bind, exchangeError, afterReply]
  | method m =>
    by_cases h : P.matches expected m = true <;>
      simp [receive, waitForResponse, Result.bind, exchangeError, afterReply,
        Connection.signalResponse, h]

theorem afterReply_fields (s : Connection) (reply : Reply) :
    (afterReply s reply).sent = s.sent ∧
    (afterReply s reply).transportCloses = s.transportCloses ∧
    (afterReply s reply).delivered = s.delivered ∧
    (afterReply s reply).channels = s.channels ∧
    (afterReply s reply).closed = s.closed ∧
    (afterReply s reply).heap = s.heap := by
  cases reply <;> simp [afterReply, Connection.signalResponse]

theorem error_eq (P : Protocol) (s : Connection) (code : Nat) (msg : String)
    (classid methodid : Nat) (reply : Reply) :
    error P s code msg classid methodid reply =
      match exchangeError P .connectionCloseOk reply with
      | some e => .raised e (afterReply
          (s.expect.send ⟨0, .method (.connectionClose code msg classid methodid)⟩) reply)
      | none => .ok (afterReply
          (s.expect.send ⟨0, .method (.connectionClose code msg classid methodid)⟩)
          reply).connectorClose := by
  unfold error sendAndReceive
  rw [receive_eq]
  cases exchangeError P .connectionCloseOk reply <;> simp [Result.bind]

theorem received_unregistered (P : Protocol) (s : Connection) (frame : AMQFrame)
    (thrown : Option QpidError) (reply : Reply) (hch : frame.channel ≠ 0)
    (habs : s.channels.find frame.channel = none) :
    received P s frame thrown reply
      = error P { s with channels := s.channels.put frame.channel none } 504
          "Unknown channel" 0 0 reply := by
  unfold received
  simp only [hch, if_false, Registry.index_of_absent _ _ habs]


/-! ## The filing invariant -/

theorem Registry.mem_put (m : Registry) (k : Nat) (v : Option Nat) (e : Nat × Option Nat)
    (h : e ∈ m.put k v) : e = (k, v) ∨ e ∈ m := by
  induction m with
  | nil =>
    left
    simpa [Registry.put] using h
  | cons e0 t ih =>
    obtain ⟨k0, v0⟩ := e0
    unfold Registry.put at h
    by_cases h1 : k < k0
    · simp only [h1, if_true, List.mem_cons] at h
      rcases h with h | h | h
      · exact Or.inl h
      · exact Or.inr (by simp [h])
      · exact Or.inr (by simp [h])
    · by_cases h2 : k = k0
      · subst h2
        simp only [Nat.lt_irrefl, if_true, if_false, List.mem_cons] at h
        rcases h with h | h
        · exact Or.inl h
        · exact Or.inr (by simp [h])
      · simp only [h1, h2, if_false, List.mem_cons] at h
        rcases h with h | h
        · exact Or.inr (by simp [h])
        · rcases ih h with h | h
          · exact Or.inl h
          · exact Or.inr (by simp [h])

theorem filed_new (counter max_frame_size : Nat) (heap : Nat → Channel) :
    (Connection.new counter max_frame_size heap).Filed := by
  intro k c h
  simp [Connection.new] at h

theorem filed_removeChannel (s : Connection) (channel : Nat) (h : s.Filed) :
    (removeChannel s channel).Filed := by
  intro k c hk
  rw [removeChannel_channels, Registry.mem_erase] at hk
  have hid := h k c hk.1
  by_cases hc : c = channel
  · subst hc
    exact absurd hid.symm hk.2
  · rw [removeChannel_heap_other s channel c hc]
    exact hid

theorem filed_closeChannel (P : Protocol) (s : Connection) (channel code : Nat)
    (text : String) (classId methodId : Nat) (reply : Reply) (h : s.Filed) :
    (closeChannel P s channel code text classId methodId reply).state.Filed := by
  have hbase : (s.setChannel channel { s.heap channel with closed := true }).Filed := by
    intro k c hk
    have hid := h k c hk
    by_cases hc : c = channel
    · subst hc
      simpa [Connection.setChannel] using hid
    · simpa [Connection.setChannel, Function.update, hc] using hid
  unfold closeChannel Channel.sendAndReceive
  cases exchangeError P .channelCloseOk reply with
  | some e => exact hbase
  | none =>
    simp only [Result.bind, Result.state]
    apply filed_removeChannel
    intro k c hk
    have hid := h k c hk
    by_cases hc : c = channel
    · subst hc
      simpa [Connection.setChannel, Connection.send] using hid
    · simpa [Connection.setChannel, Connection.send, Function.update, hc] using hid

theorem filed_openChannel (P : Protocol) (s : Connection) (channel : Nat) (reply : Reply)
    (qos : Option QpidError) (h : s.Filed) (hnew : ∀ k, (k, some channel) ∉ s.channels) :
    (openChannel P s channel reply qos).state.Filed := by
  have key : ∀ closed : Bool, ∀ k c,
      (k, some c) ∈ s.channels.put ((s.channelIdCounter + 1) % 65536) (some channel) →
      (Function.update s.heap channel
        { id := (s.channelIdCounter + 1) % 65536, closed := closed, con := true,
          out := s.out } c).id = k := by
    intro closed k c hk
    rcases Registry.mem_put _ _ _ _ hk with hm | hm
    · simp only [Prod.mk.injEq, Option.some.injEq] at hm
      obtain ⟨hk1, hk2⟩ := hm
      subst hk2
      simp [hk1]
    · have hc : c ≠ channel := by
        intro hc
        subst hc
        exact hnew k hm
      simpa [Function.update, hc] using h k c hm
  unfold openChannel Channel.sendAndReceive
  cases exchangeError P .channelOpenOk reply <;> cases qos <;>
    · intro k c hk
      simp only [Result.bind, Result.state, Connection.setChannel, Connection.send,
        Function.update_same, Function.update_idem] at hk ⊢
      exact key _ k c hk

theorem filed_error (P : Protocol) (s : Connection) (code : Nat) (msg : String)
    (classid methodid : Nat) (reply : Reply) (h : s.Filed) :
    (error P s code msg classid methodid reply).state.Filed := by
  rw [error_eq]
  cases exchangeError P .connectionCloseOk reply <;>
    · intro k c hk
      simp only [Result.state, Connection.connectorClose, afterReply_fields, Connection.send,
        Connection.expect] at hk ⊢
      exact h k c hk

theorem filed_received (P : Protocol) (s : Connection) (frame : AMQFrame)
    (thrown : Option QpidError) (reply : Reply) (h : s.Filed) :
    (received P s frame thrown reply).state.Filed := by
  unfold received
  by_cases hch : frame.channel = 0
  · simp only [hch, if_true]
    cases frame.body with
    | method m =>
      simp only [handleBody, handleMethod]
      split
      · exact h
      · split
        · exact h
        · exact filed_error P s _ _ _ _ reply h
    | header => exact filed_error P s _ _ _ _ reply h
    | content => exact filed_error P s _ _ _ _ reply h
    | heartbeat => exact h
  · simp only [hch, if_false]
    cases hf : s.channels.find frame.channel with
    | none =>
      rw [Registry.index_of_absent _ _ hf]
      apply filed_error
      intro k c hk
      rcases Registry.mem_put _ _ _ _ hk with hm | hm
      · simp at hm
      · exact h k c hm
    | some v =>
      rw [Registry.index_of_find _ _ _ hf]
      cases v with
      | none => exact filed_error P s _ _ _ _ reply h
      | some c =>
        cases thrown with
        | none => exact h
        | some e =>
          simp only [channelException]
          cases frame.body.asMethod <;> exact filed_closeChannel P _ _ _ _ _ _ reply h

/-! ## The handshake -/

theorem Result.bind_ok (s : Connection) (f : Connection → Result) :
    (Result.ok s).bind f = f s := rfl

theorem bind_state_sent (r : Result) (f : Connection → Result) (base : List AMQFrame)
    (hr : ∃ rest, r.state.sent = base ++ rest)
    (hf : ∀ s, (∃ rest, s.sent = base ++ rest) → ∃ rest, (f s).state.sent = base ++ rest) :
    ∃ rest, (r.bind f).state.sent = base ++ rest := by
  cases r with
  | ok s => exact hf s hr
  | raised e s => exact hr
  | fault s => exact hr

theorem receive_state_sent (P : Protocol) (s : Connection) (expected : MethodBody)
    (reply : Reply) : (receive P s expected reply).state.sent = s.sent := by
  rw [receive_eq]
  cases exchangeError P expected reply <;> simp [Result.state, afterReply_fields]

theorem waitForResponse_state_sent (s : Connection) (reply : Reply) :
    (waitForResponse s reply).state.sent = s.sent := by
  cases reply <;> simp [waitForResponse, Result.state, Connection.signalResponse]

theorem bind_state_closed (r : Result) (f : Connection → Result) (b : Bool)
    (hr : r.state.closed = b) (hf : ∀ s, s.closed = b → (f s).state.closed = b) :
    (r.bind f).state.closed = b := by
  cases r with
  | ok s => exact hf s hr
  | raised e s => exact hr
  | fault s => exact hr

theorem receive_state_closed (P : Protocol) (s : Connection) (expected : MethodBody)
    (reply : Reply) : (receive P s expected reply).state.closed = s.closed := by
  rw [receive_eq]
  cases exchangeError P expected reply <;> simp [Result.state, afterReply_fields]

theorem waitForResponse_state_closed (s : Connection) (reply : Reply) :
    (waitForResponse s reply).state.closed = s.closed := by
  cases reply <;> simp [waitForResponse, Result.state, Connection.signalResponse]

theorem open_sent_startOk (P : Protocol) (s : Connection) (host : String) (port : Int)
    (uid pwd virtualhost : String) (r1 r2 r3 : Reply)
    (h : exchangeError P .connectionStart r1 = none) :
    ∃ rest, (Connection.open P s host port uid pwd virtualhost r1 r2 r3).state.sent
      = (s.sent ++ [⟨0, .method (.connectionStartOk "PLAIN" (authResponse uid pwd) "en_US")⟩])
          ++ rest := by
  simp only [Connection.open, Connection.expect, Connection.send]
  rw [receive_eq, h]
  simp only [Result.bind_ok]
  refine bind_state_sent _ _ _ ⟨[], ?_⟩ ?_
  · rw [receive_state_sent]
    simp [Connection.send, Connection.expect, afterReply_fields]
  · intro s1 hs1
    obtain ⟨rest1, hs1⟩ := hs1
    split
    · refine bind_state_sent _ _ _ ?_ ?_
      · rw [waitForResponse_state_sent]
        simp only [hs1, List.append_assoc]
        exact ⟨_, rfl⟩
      · intro s2 hs2
        split
        · split
          · exact hs2
          · split
            · split
              · exact hs2
              · exact hs2
            · exact hs2
        · exact hs2
    · exact ⟨rest1, hs1⟩

theorem open_closed (P : Protocol) (s : Connection) (host : String) (port : Int)
    (uid pwd virtualhost : String) (r1 r2 r3 : Reply) :
    (Connection.open P s host port uid pwd virtualhost r1 r2 r3).state.closed = s.closed := by
  simp only [Connection.open, Connection.expect, Connection.send]
  refine bind_state_closed _ _ _ (by rw [receive_state_closed]) ?_
  intro s1 hs1
  refine bind_state_closed _ _ _ (by rw [receive_state_closed]; exact hs1) ?_
  intro s2 hs2
  split
  · refine bind_state_closed _ _ _ (by rw [waitForResponse_state_closed]; exact hs2) ?_
    intro s3 hs3
    split
    · split
      · exact hs3
      · split
        · split
          · exact hs3
          · exact hs3
        · exact hs3
    · exact hs3
  · exact hs2


/-! ## The claims -/

/-- C1 (as amended): for every sequence of openChannel, closeChannel and
removeChannel calls during which the 16-bit counter does not wrap (its value
before the sequence plus the number of openChannel calls stays below 65536),
the identifiers assigned by openChannel are strictly increasing in call
order, pairwise distinct, and each is greater than the counter value the
sequence started from, so no identifier handed out before is assigned
again. -/
theorem C1_ids_strictly_increasing_without_wrap (P : Protocol) (s : Connection)
    (ops : List Op) (h : s.channelIdCounter + countOpens ops < 65536) :
    List.Pairwise (· < ·) (assignedIds P s ops) ∧
      (assignedIds P s ops).Nodup ∧
      ∀ i ∈ assignedIds P s ops, s.channelIdCounter < i ∧ i < 65536 := by
  have hb := assignedIds_bounds P ops s h
  exact ⟨hb.1, hb.1.imp (fun hlt => Nat.ne_of_lt hlt), hb.2⟩

/-- C1, instance: two open/close cycles on the example connection. -/
theorem C1_ids_strictly_increasing_without_wrap_witness :
    openedExample.channelIdCounter + countOpens (openCloseCycles 2) < 65536 ∧
      (List.Pairwise (· < ·) (assignedIds exampleProtocol openedExample (openCloseCycles 2)) ∧
        (assignedIds exampleProtocol openedExample (openCloseCycles 2)).Nodup ∧
        ∀ i ∈ assignedIds exampleProtocol openedExample (openCloseCycles 2),
          openedExample.channelIdCounter < i ∧ i < 65536) :=
  ⟨by decide,
    C1_ids_strictly_increasing_without_wrap exampleProtocol openedExample (openCloseCycles 2)
      (by decide)⟩

/-- C1 as stated fails: on the example connection, 65537 cycles of opening
and closing one channel yield identifiers that are neither strictly
increasing nor pairwise distinct (the 65536th open is assigned 0 and the
65537th is assigned 1 again, the identifier of the first). -/
theorem C1_ids_repeat_after_wrap :
    ¬ List.Pairwise (· < ·)
        (assignedIds exampleProtocol openedExample (openCloseCycles 65537)) ∧
      ¬ (assignedIds exampleProtocol openedExample (openCloseCycles 65537)).Nodup := by
  have hc : openedExample.channelIdCounter = 0 := rfl
  rw [assignedIds_openCloseCycles, hc]
  constructor
  · intro h
    have := List.pairwise_iff_getElem.mp h 0 65535 (by simp) (by simp) (by omega)
    simp at this
  · intro h
    have := (@List.Nodup.getElem_inj_iff _ _ h 0 (by simp) 65536 (by simp)).mp (by simp)
    omega

/-- C2 (as amended): when a frame arrives for a registered channel c that the
registry files under no identifier other than the id of c, the body
handling raises a QpidError and the peer confirms the channel-close,
received() returns normally, removes c from the registry and leaves the
rest as it was: every other entry is still there and refers to a channel
object with unchanged fields, the closed flag of the connection and the
number of transport closes keep their values, and the only frame sent is
one channel-close on the channel of the frame. -/
theorem C2_channel_failure_isolated (P : Protocol) (s : Connection) (frame : AMQFrame)
    (c : Nat) (e : QpidError) (m : MethodBody)
    (hch : frame.channel ≠ 0)
    (hreg : s.channels.find frame.channel = some (some c))
    (hown : ∀ k, (k, some c) ∈ s.channels → k = (s.heap c).id)
    (hok : P.matches .channelCloseOk m = true) :
    ∃ s1, received P s frame (some e) (.method m) = .ok s1 ∧
      s1.channels = s.channels.erase frame.channel ∧
      (∀ k, (k, some c) ∉ s1.channels) ∧
      (∀ k v, k ≠ frame.channel → ((k, v) ∈ s1.channels ↔ (k, v) ∈ s.channels)) ∧
      (∀ k q, k ≠ frame.channel → (k, some q) ∈ s.channels → s1.heap q = s.heap q) ∧
      s1.closed = s.closed ∧ s1.transportCloses = s.transportCloses ∧
      (∃ code text classId methodId, s1.sent = s.sent ++
        [⟨frame.channel, .method (.channelClose code text classId methodId)⟩]) := by
  have hid : frame.channel = (s.heap c).id := hown _ (Registry.find_some_mem _ _ _ hreg)
  have hex := exchangeError_of_matches P _ _ hok
  have key : ∀ classId methodId, ∃ s1,
      closeChannel P { s with delivered := s.delivered ++ [(c, frame.body)] } c
          (channelExceptionCode P e) e.msg classId methodId (.method m) = .ok s1 ∧
      s1.channels = s.channels.erase frame.channel ∧
      (∀ k, (k, some c) ∉ s1.channels) ∧
      (∀ k v, k ≠ frame.channel → ((k, v) ∈ s1.channels ↔ (k, v) ∈ s.channels)) ∧
      (∀ k q, k ≠ frame.channel → (k, some q) ∈ s.channels → s1.heap q = s.heap q) ∧
      s1.closed = s.closed ∧ s1.transportCloses = s.transportCloses ∧
      (∃ code text classId methodId, s1.sent = s.sent ++
        [⟨frame.channel, .method (.channelClose code text classId methodId)⟩]) := by
    intro classId methodId
    obtain ⟨s1, h1, hchs, _, hoth, hcl, htc, _, _, hsent⟩ :=
      closeChannel_confirmed P { s with delivered := s.delivered ++ [(c, frame.body)] } c
        (channelExceptionCode P e) e.msg classId methodId (.method m) hex
    simp only at hchs hoth hcl htc hsent
    rw [← hid] at hchs hsent
    refine ⟨s1, h1, hchs, ?_, ?_, ?_, hcl, htc, ⟨_, _, _, _, hsent⟩⟩
    · intro k hk
      rw [hchs, Registry.mem_erase] at hk
      exact hk.2 ((hown k hk.1).trans hid.symm)
    · intro k v hk
      rw [hchs, Registry.mem_erase]
      exact ⟨fun h => h.1, fun h => ⟨h, hk⟩⟩
    · intro k q hk hq
      apply hoth
      intro hqc
      subst hqc
      exact hk ((hown k hq).trans hid.symm)
  rw [received_registered_thrown P s frame c e _ hch hreg]
  unfold channelException
  cases frame.body.asMethod with
  | none => exact key 0 0
  | some b => exact key _ _

/-- C2, instance: a failing method body on channel 1 of the example
connection with two channels; the sibling channel at address 4 stays filed
under 2 with its fields unchanged. -/
theorem C2_channel_failure_isolated_witness :
    ((1 : Nat) ≠ 0 ∧
      twoChannels.channels.find 1 = some (some 3) ∧
      (∀ k, (k, some 3) ∈ twoChannels.channels → k = (twoChannels.heap 3).id) ∧
      exampleProtocol.matches .channelCloseOk .channelCloseOk = true ∧
      twoChannels.channels = [(1, some 3), (2, some 4)]) ∧
    ∃ s1, received exampleProtocol twoChannels ⟨1, .method (.other 5)⟩
        (some ⟨10504, "Unknown consumer"⟩) (.method .channelCloseOk) = .ok s1 ∧
      s1.channels = twoChannels.channels.erase 1 ∧
      (∀ k, (k, some 3) ∉ s1.channels) ∧
      (∀ k v, k ≠ 1 → ((k, v) ∈ s1.channels ↔ (k, v) ∈ twoChannels.channels)) ∧
      (∀ k q, k ≠ 1 → (k, some q) ∈ twoChannels.channels →
        s1.heap q = twoChannels.heap q) ∧
      s1.closed = twoChannels.closed ∧ s1.transportCloses = twoChannels.transportCloses ∧
      (∃ code text classId methodId, s1.sent = twoChannels.sent ++
        [⟨1, .method (.channelClose code text classId methodId)⟩]) :=
  have hc : twoChannels.channels = [(1, some 3), (2, some 4)] := rfl
  have hown : ∀ k, (k, some 3) ∈ twoChannels.channels → k = (twoChannels.heap 3).id := by
    intro k hk
    have hi : (twoChannels.heap 3).id = 1 := rfl
    rw [hc] at hk
    rw [hi]
    simpa using hk
  ⟨⟨by decide, rfl, hown, rfl, hc⟩,
    C2_channel_failure_isolated exampleProtocol twoChannels ⟨1, .method (.other 5)⟩ 3
      ⟨10504, "Unknown consumer"⟩ .channelCloseOk (by decide) rfl hown rfl⟩

/-- C2 as stated fails: after an open of the channel at address 3 that timed
out and was retried, the registry files the channel under 1 and under 2 and
its id is 2.  A frame on channel 1 whose handling raises a QpidError, the
peer confirming the channel-close, makes received() send the channel-close
on channel 2 and erase the entry of 2: the channel is still filed under 1,
and that entry now refers to a channel whose id, connection reference and
output handle have changed. -/
theorem C2_refiled_channel_stays_registered :
    retriedOpen.channels = [(1, some 3), (2, some 3)] ∧
      retriedOpen.channels.find 1 = some (some 3) ∧
      retriedOpen.heap 3 = { id := 2, closed := false, con := true, out := true } ∧
      ∃ s1, received exampleProtocol retriedOpen ⟨1, .method (.other 5)⟩
          (some ⟨10504, "Unknown consumer"⟩) (.method .channelCloseOk) = .ok s1 ∧
        s1.channels = [(1, some 3)] ∧
        (1, some 3) ∈ s1.channels ∧
        s1.heap 3 = { id := 0, closed := true, con := false, out := false } ∧
        s1.sent.getLast?
          = some ⟨2, .method (.channelClose 500 "Unknown consumer" 35 0)⟩ :=
  ⟨rfl, rfl, rfl, _, rfl, rfl, by decide, rfl, rfl⟩

/-- C3: for every inbound frame whose channel id is non-zero and has no entry
in the registry, received() hands exactly one frame to the output handler,
a connection-close on channel 0 with code 504, text Unknown channel and
class and method id 0, whatever the peer answers, and hands the body to no
channel; when the peer answers close-ok the call returns normally with the
reply recorded and the transport closed exactly once. -/
theorem C3_unknown_channel_error (P : Protocol) (s : Connection) (frame : AMQFrame)
    (thrown : Option QpidError)
    (hch : frame.channel ≠ 0) (habs : s.channels.find frame.channel = none) :
    (∀ reply,
      (received P s frame thrown reply).state.sent
          = s.sent ++ [⟨0, .method (.connectionClose 504 "Unknown channel" 0 0)⟩] ∧
        (received P s frame thrown reply).state.delivered = s.delivered) ∧
      (∀ m, P.matches .connectionCloseOk m = true →
        ∃ s1, received P s frame thrown (.method m) = .ok s1 ∧
          s1.response = some m ∧
          s1.transportCloses = s.transportCloses + 1) := by
  constructor
  · intro reply
    rw [received_unregistered P s frame thrown reply hch habs, error_eq]
    cases exchangeError P .connectionCloseOk reply <;>
      simp [Result.state, afterReply_fields, Connection.connectorClose, Connection.send,
        Connection.expect]
  · intro m hm
    rw [received_unregistered P s frame thrown _ hch habs, error_eq,
      exchangeError_of_matches P _ _ hm]
    exact ⟨_, rfl, by simp [afterReply, Connection.connectorClose, Connection.signalResponse],
      by simp [afterReply, Connection.connectorClose, Connection.signalResponse,
        Connection.send, Connection.expect]⟩

/-- C3, instance: a heartbeat frame on channel 7 of the example connection,
whose registry is empty. -/
theorem C3_unknown_channel_error_witness :
    ((7 : Nat) ≠ 0 ∧ openedExample.channels.find 7 = none) ∧
    ((∀ reply,
      (received exampleProtocol openedExample ⟨7, .heartbeat⟩ none reply).state.sent
          = openedExample.sent ++
            [⟨0, .method (.connectionClose 504 "Unknown channel" 0 0)⟩] ∧
        (received exampleProtocol openedExample ⟨7, .heartbeat⟩ none reply).state.delivered
          = openedExample.delivered) ∧
      (∀ m, exampleProtocol.matches .connectionCloseOk m = true →
        ∃ s1, received exampleProtocol openedExample ⟨7, .heartbeat⟩ none (.method m)
            = .ok s1 ∧
          s1.response = some m ∧
          s1.transportCloses = openedExample.transportCloses + 1)) :=
  ⟨⟨by decide, rfl⟩,
    C3_unknown_channel_error exampleProtocol openedExample ⟨7, .heartbeat⟩ none
      (by decide) rfl⟩

/-- C4, the code at the input of the claim: a freshly constructed connection
opened for guest/guest on virtual host / against a peer answering start,
tune(channelMax=0, frameMax=131072, heartbeat=60) and open-ok.  The call
returns normally after the three exchanges with read timeout 120 and write
timeout 60, but the closed flag is still true, and a following close()
returns the same state: it sends nothing and does not close the transport.
For every input open() leaves the closed flag as it found it. -/
theorem C4_closed_still_true_after_open :
    (∃ s, Connection.open exampleProtocol (Connection.new 0 131072 fun _ => Channel.detached)
        "h" 5672 "guest" "guest" "/" (.method .connectionStart)
        (.method (.connectionTune 0 131072 60)) (.method .connectionOpenOk) = .ok s ∧
      s.closed = true ∧ s.readTimeout = 120 ∧ s.writeTimeout = 60 ∧ s.sent.length = 3 ∧
      close exampleProtocol s (.method .connectionCloseOk) = .ok s) ∧
    ∀ (P : Protocol) (s : Connection) (host : String) (port : Int)
      (uid pwd virtualhost : String) (r1 r2 r3 : Reply),
      (Connection.open P s host port uid pwd virtualhost r1 r2 r3).state.closed = s.closed :=
  ⟨⟨_, rfl, rfl, rfl, rfl, rfl, rfl⟩, open_closed⟩

/-- C5 (as amended): if the synchronous channel-open exchange inside
openChannel fails, the error propagates to the caller and the channel stays
bound and registered: the registry files it under the identifier just
assigned, its id is that identifier, its connection reference is set, its
output handle is the one of the connection and its closed flag is not
touched. -/
theorem C5_failed_open_leaves_channel_bound (P : Protocol) (s : Connection) (channel : Nat)
    (reply : Reply) (qos : Option QpidError) (e : QpidError)
    (h : exchangeError P .channelOpenOk reply = some e) :
    ∃ s1, openChannel P s channel reply qos = .raised e s1 ∧
      s1.channels.find ((s.channelIdCounter + 1) % 65536) = some (some channel) ∧
      s1.heap channel = { id := (s.channelIdCounter + 1) % 65536,
                          closed := (s.heap channel).closed, con := true, out := s.out } := by
  unfold openChannel Channel.sendAndReceive
  simp only [h, Result.bind]
  refine ⟨_, rfl, ?_, ?_⟩
  · simp [Connection.setChannel, Connection.send, Registry.find_put]
  · simp [Connection.setChannel, Connection.send]

/-- C5, instance: the channel-open of the channel at address 3 on the example
connection times out. -/
theorem C5_failed_open_leaves_channel_bound_witness :
    exchangeError exampleProtocol .channelOpenOk (.failure ⟨0, "timed out"⟩)
        = some ⟨0, "timed out"⟩ ∧
    ∃ s1, openChannel exampleProtocol openedExample 3 (.failure ⟨0, "timed out"⟩) none
        = .raised ⟨0, "timed out"⟩ s1 ∧
      s1.channels.find ((openedExample.channelIdCounter + 1) % 65536) = some (some 3) ∧
      s1.heap 3 = { id := (openedExample.channelIdCounter + 1) % 65536,
                    closed := (openedExample.heap 3).closed, con := true,
                    out := openedExample.out } :=
  ⟨rfl,
    C5_failed_open_leaves_channel_bound exampleProtocol openedExample 3
      (.failure ⟨0, "timed out"⟩) none ⟨0, "timed out"⟩ rfl⟩

/-- C5 as stated fails: when the channel-open of the channel at address 3 on
the example connection times out, the channel is in the registry under
identifier 1, its id is 1 and its connection reference and output handle
are set. -/
theorem C5_failed_open_not_unbound :
    ∃ s1, openChannel exampleProtocol openedExample 3 (.failure ⟨0, "timed out"⟩) none
        = .raised ⟨0, "timed out"⟩ s1 ∧
      s1.channels = [(1, some 3)] ∧ (s1.heap 3).id = 1 ∧ (s1.heap 3).con = true ∧
      (s1.heap 3).out = true :=
  ⟨_, rfl, rfl, rfl, rfl, rfl⟩

/-- C6 (as amended): on both connection-fatal paths, error(code, msg, classId,
methodId) and close() with the closed flag false, if the synchronous close
handshake fails, the error propagates to the caller and the transport is
not closed by the call. -/
theorem C6_failed_close_handshake_propagates (P : Protocol) (s : Connection) (code : Nat)
    (msg : String) (classid methodid : Nat) (reply : Reply) (e : QpidError)
    (h : exchangeError P .connectionCloseOk reply = some e) :
    (∃ s1, error P s code msg classid methodid reply = .raised e s1 ∧
        s1.transportCloses = s.transportCloses) ∧
      (s.closed = false → ∃ s1, close P s reply = .raised e s1 ∧
        s1.transportCloses = s.transportCloses) := by
  constructor
  · rw [error_eq, h]
    exact ⟨_, rfl, by simp [afterReply_fields, Connection.send, Connection.expect]⟩
  · intro hc
    unfold close sendAndReceive
    rw [receive_eq, h]
    simp only [hc, Bool.not_false, if_true, Result.bind]
    exact ⟨_, rfl, by simp [afterReply_fields, Connection.send, Connection.expect]⟩

/-- C6, instance: the close handshake times out on the example connection
with its closed flag set to false. -/
theorem C6_failed_close_handshake_propagates_witness :
    exchangeError exampleProtocol .connectionCloseOk (.failure ⟨0, "timed out"⟩)
        = some ⟨0, "timed out"⟩ ∧
    ((∃ s1, error exampleProtocol { openedExample with closed := false } 504
          "Unknown channel" 0 0 (.failure ⟨0, "timed out"⟩) = .raised ⟨0, "timed out"⟩ s1 ∧
        s1.transportCloses = ({ openedExample with closed := false } : Connection).transportCloses) ∧
      (({ openedExample with closed := false } : Connection).closed = false →
        ∃ s1, close exampleProtocol { openedExample with closed := false }
            (.failure ⟨0, "timed out"⟩) = .raised ⟨0, "timed out"⟩ s1 ∧
          s1.transportCloses
            = ({ openedExample with closed := false } : Connection).transportCloses)) :=
  ⟨rfl,
    C6_failed_close_handshake_propagates exampleProtocol { openedExample with closed := false }
      504 "Unknown channel" 0 0 (.failure ⟨0, "timed out"⟩) ⟨0, "timed out"⟩ rfl⟩

/-- C6 as stated fails: when the close handshake started by error(504,
Unknown channel) on the example connection times out, the error reaches the
caller and the transport has not been closed; the same holds for close() on
the example connection with its closed flag false. -/
theorem C6_transport_left_open :
    (∃ s1, error exampleProtocol openedExample 504 "Unknown channel" 0 0
        (.failure ⟨0, "timed out"⟩) = .raised ⟨0, "timed out"⟩ s1 ∧
      s1.transportCloses = 0) ∧
    (∃ s1, close exampleProtocol { openedExample with closed := false }
        (.failure ⟨0, "timed out"⟩) = .raised ⟨0, "timed out"⟩ s1 ∧
      s1.transportCloses = 0) :=
  ⟨⟨_, rfl, rfl⟩, ⟨_, rfl, rfl⟩⟩

/-- C7, the code at the failing input: a QpidError whose code is
PROTOCOL_ERROR + 504, raised while the channel registered under 1 handles a
method body.  The reply code computed by channelException is 500 for every
value of the PROTOCOL_ERROR base, not 504, and the channel-close frame sent
on the example connection carries 500. -/
theorem C7_reply_code_not_translated :
    (∀ (P : Protocol) (msg : String),
      channelExceptionCode P ⟨P.PROTOCOL_ERROR + 504, msg⟩ = 500) ∧
    oneChannel.channels = [(1, some 3)] ∧
    (received exampleProtocol oneChannel ⟨1, .method (.other 5)⟩
        (some ⟨exampleProtocol.PROTOCOL_ERROR + 504, "Unknown consumer"⟩)
        (.method .channelCloseOk)).state.sent.getLast?
      = some ⟨1, .method (.channelClose 500 "Unknown consumer" 35 0)⟩ := by
  refine ⟨?_, rfl, rfl⟩
  intro P msg
  have hne : ¬ (P.PROTOCOL_ERROR + 504 = P.PROTOCOL_ERROR) := by omega
  simp [channelExceptionCode, hne]

/-- C8 (as amended): for every registry with no entry under identifier 0 and
every channel that the registry files under no identifier other than its
own, calling removeChannel twice leaves the registry with exactly the
entries that one call leaves, and after the first call the channel is in no
entry, has id 0 and has its connection and output references cleared. -/
theorem C8_removeChannel_idempotent (s : Connection) (channel : Nat)
    (h0 : ∀ e ∈ s.channels, e.1 ≠ 0)
    (hown : ∀ k, (k, some channel) ∈ s.channels → k = (s.heap channel).id) :
    (removeChannel (removeChannel s channel) channel).channels
        = (removeChannel s channel).channels ∧
      (∀ k, (k, some channel) ∉ (removeChannel s channel).channels) ∧
      ((removeChannel s channel).heap channel).id = 0 ∧
      ((removeChannel s channel).heap channel).con = false ∧
      ((removeChannel s channel).heap channel).out = false := by
  refine ⟨?_, ?_, ?_, ?_, ?_⟩
  · rw [removeChannel_channels (removeChannel s channel), removeChannel_heap_self,
      removeChannel_channels]
    apply Registry.erase_of_no_key
    intro e he
    exact h0 e ((Registry.mem_erase _ _ _).mp he).1
  · intro k hk
    rw [removeChannel_channels, Registry.mem_erase] at hk
    exact hk.2 (hown k hk.1)
  · rw [removeChannel_heap_self]
  · rw [removeChannel_heap_self]
  · rw [removeChannel_heap_self]

/-- C8, instance: the example connection with the channel at address 3
registered under 1. -/
theorem C8_removeChannel_idempotent_witness :
    ((∀ e ∈ oneChannel.channels, e.1 ≠ 0) ∧
      (∀ k, (k, some 3) ∈ oneChannel.channels → k = (oneChannel.heap 3).id)) ∧
    ((removeChannel (removeChannel oneChannel 3) 3).channels
        = (removeChannel oneChannel 3).channels ∧
      (∀ k, (k, some 3) ∉ (removeChannel oneChannel 3).channels) ∧
      ((removeChannel oneChannel 3).heap 3).id = 0 ∧
      ((removeChannel oneChannel 3).heap 3).con = false ∧
      ((removeChannel oneChannel 3).heap 3).out = false) :=
  have hc : oneChannel.channels = [(1, some 3)] := rfl
  have hi : (oneChannel.heap 3).id = 1 := rfl
  have h0 : ∀ e ∈ oneChannel.channels, e.1 ≠ 0 := by
    intro e he
    rw [hc] at he
    simp at he
    simp [he]
  have hown : ∀ k, (k, some 3) ∈ oneChannel.channels → k = (oneChannel.heap 3).id := by
    intro k hk
    rw [hc] at hk
    rw [hi]
    simpa using hk
  ⟨⟨h0, hown⟩, C8_removeChannel_idempotent oneChannel 3 h0 hown⟩

/-- C8 as stated fails: with the counter at 65535 the next two opens register
the channels at addresses 1 and 2 under identifiers 0 and 1; the first
removeChannel of the second channel leaves the entry of identifier 0, the
second removeChannel of the same channel erases that entry too. -/
theorem C8_second_remove_evicts_channel_zero :
    wrappedExample.channels = [(0, some 1), (1, some 2)] ∧
      (removeChannel wrappedExample 2).channels = [(0, some 1)] ∧
      (removeChannel (removeChannel wrappedExample 2) 2).channels = [] ∧
      (removeChannel (removeChannel wrappedExample 2) 2).channels
        ≠ (removeChannel wrappedExample 2).channels :=
  ⟨rfl, rfl, rfl, by decide⟩

/-- C9 (as amended): for every username u and password p, when the peer
answers the protocol initiation with start, the first frame open() sends is
a start-ok on channel 0 with mechanism PLAIN, locale en_US and the response
NUL byte, u, NUL byte, p: the response does not begin with the mechanism
name. -/
theorem C9_auth_response_layout (P : Protocol) (s : Connection) (host : String) (port : Int)
    (uid pwd virtualhost : String) (r1 r2 r3 : Reply)
    (h : exchangeError P .connectionStart r1 = none) :
    ∃ rest, (Connection.open P s host port uid pwd virtualhost r1 r2 r3).state.sent
      = s.sent ++ (⟨0, .method (.connectionStartOk "PLAIN"
          (String.singleton (Char.ofNat 0) ++ uid ++ String.singleton (Char.ofNat 0) ++ pwd)
          "en_US")⟩ :: rest) := by
  obtain ⟨rest, hrest⟩ := open_sent_startOk P s host port uid pwd virtualhost r1 r2 r3 h
  exact ⟨rest, by rw [hrest]; simp [authResponse]⟩

/-- C9, instance: the handshake of the example connection. -/
theorem C9_auth_response_layout_witness :
    exchangeError exampleProtocol .connectionStart (.method .connectionStart) = none ∧
    ∃ rest, (Connection.open exampleProtocol (Connection.new 0 131072 fun _ => Channel.detached)
        "h" 5672 "guest" "guest" "/" (.method .connectionStart)
        (.method (.connectionTune 0 131072 60)) (.method .connectionOpenOk)).state.sent
      = (Connection.new 0 131072 fun _ => Channel.detached).sent ++
        (⟨0, .method (.connectionStartOk "PLAIN"
          (String.singleton (Char.ofNat 0) ++ "guest" ++ String.singleton (Char.ofNat 0)
            ++ "guest") "en_US")⟩ :: rest) :=
  ⟨rfl,
    C9_auth_response_layout exampleProtocol (Connection.new 0 131072 fun _ => Channel.detached)
      "h" 5672 "guest" "guest" "/" (.method .connectionStart)
      (.method (.connectionTune 0 131072 60)) (.method .connectionOpenOk) rfl⟩

/-- C9 as stated fails: in the handshake of the example connection (user
guest, password guest) the first frame sent is the start-ok, and its
response is not the layout PLAIN, NUL, guest, NUL, guest. -/
theorem C9_response_lacks_mechanism :
    openedExample.sent.head?
        = some ⟨0, .method (.connectionStartOk "PLAIN" (authResponse "guest" "guest") "en_US")⟩ ∧
      authResponse "guest" "guest" ≠ nullDelimited "PLAIN" "guest" "guest" :=
  ⟨rfl, by decide⟩

/-- C10, the code at the failing input: a heartbeat frame on channel 7 of the
example connection, whose registry is empty.  After received() the registry
holds an entry for 7 with a null channel, and shutdown() on that state
dereferences the null pointer. -/
theorem C10_unknown_channel_leaves_null_entry :
    openedExample.channels = [] ∧
    (received exampleProtocol openedExample ⟨7, .heartbeat⟩ none
        (.method .connectionCloseOk)).state.channels = [(7, none)] ∧
    ∃ s, shutdown (received exampleProtocol openedExample ⟨7, .heartbeat⟩ none
        (.method .connectionCloseOk)).state = .fault s :=
  ⟨rfl, rfl, _, rfl⟩

end Qpid
